import Mathlib

/-!
Verification of the Language Preference and Dropdown Selector component of
the TourGuideSpeaker site, a shallow embedding of the function
initLanguageSwitcher in assets/js/main.js (lines 265-387).

The DOM state a selector instance touches is modelled by the record
SelectorState below.  Each event handler registered by the source becomes a
pure function on that state:

* clickItem i      - the click handler attached to the i-th declared option
                     (main.js lines 290-326), in the normal environment where
                     the localStorage write at line 307 succeeds;
* select c         - a user selection addressed by language code: the click
                     handler of the first declared option whose data-lang
                     attribute equals c, a no-op when no such option exists
                     (no handler is attached to an undeclared code);
* clickItemStoreThrows i - the same click handler in an environment where the
                     localStorage.setItem call at line 307 throws (quota
                     exceeded, storage disabled): the statements before the
                     write run, the write and every statement after it are
                     skipped, and the exception propagates to the dispatcher;
* arrowDownStep / arrowUpStep / escape / tab - the keydown handler on the
                     menu (lines 329-355);
* document click   - the document-level click handler (lines 358-363);
* restore          - the restore block run once at setup (lines 365-385).

JavaScript specifics preserved by the embedding: the saved-language check at
line 367 is the truthiness test "if (savedLang)", which treats the empty
string like a missing value; keyboard indices are computed modulo the number
of options; the current-label element may be absent (the handler guards with
"if (currentLabel)"), modelled by an Option String.
-/

namespace TourGuide

/-- Declared language option: one element with class lang-switcher__item,
carrying data-lang (the code) and data-label (the display label). -/
structure LanguageOption where
  code : String
  label : String
deriving DecidableEq, Repr

/-- State of one selector instance together with the page-wide state it
touches.  Fields: options is the declared option list in document order;
active is the per-option is-active class; currentLabel is the text of the
lang-switcher__current element, none when that element is absent; isOpen is
the is-open class on the switcher root; ariaExpanded mirrors the toggle's
aria-expanded attribute; store is the localStorage value under the key
preferredLanguage; dir is the dir attribute of the document root; emitted
is the list of dispatched languageChange events, as (lang, label) pairs;
focus is the index of the focused option, none when focus is elsewhere. -/
structure SelectorState where
  options : List LanguageOption
  active : List Bool
  currentLabel : Option String
  isOpen : Bool
  ariaExpanded : Bool
  store : Option String
  dir : String
  emitted : List (String × String)
  focus : Option Nat
deriving DecidableEq, Repr

/-- Active-flag list after the source removes the is-active class from every
option and adds it to option i (main.js lines 303-304 and 372-373): length n,
true exactly at position i. -/
def activeOnly : Nat → Nat → List Bool
  | 0, _ => []
  | n + 1, 0 => true :: List.replicate n false
  | n + 1, i + 1 => false :: activeOnly n i

/-- First declared option whose code is c, with its index: the embedding of
querySelector on the attribute selector for data-lang equal to c
(main.js line 368), and of addressing a click at the option with code c. -/
def findOpt (c : String) : List LanguageOption → Option (Nat × LanguageOption)
  | [] => none
  | o :: rest =>
    if o.code = c then some (0, o)
    else (findOpt c rest).map (fun p => (p.1 + 1, p.2))

/-- Index of the first option carrying the is-active class, the reading of
selectedCode off the DOM. -/
def firstActive : List Bool → Option Nat
  | [] => none
  | true :: _ => some 0
  | false :: rest => (firstActive rest).map (fun i => i + 1)

/-- Code of the active option of the selector: SelectorState.selectedCode of
the specification, read off the active flags and the option list. -/
def selectedCode (s : SelectorState) : Option String :=
  (firstActive s.active).bind (fun i => (s.options.get? i).map (fun o => o.code))

/-- Click handler of the i-th declared option (main.js lines 290-326), in the
normal environment where the storage write succeeds.  In source order: set
the current label text when the label element exists, move the is-active
class to the clicked option, write the code to localStorage, remove the
is-open class and reset aria-expanded, dispatch a languageChange event with
detail (lang, label), and set the document dir attribute to rtl when the
code is ar-EG and to ltr otherwise.  When no option has index i there is no
such handler and the state is unchanged. -/
def clickItem (i : Nat) (s : SelectorState) : SelectorState :=
  match s.options.get? i with
  | none => s
  | some opt =>
    { s with
      currentLabel := s.currentLabel.map fun _ => opt.label
      active := activeOnly s.options.length i
      store := some opt.code
      isOpen := false
      ariaExpanded := false
      emitted := s.emitted ++ [(opt.code, opt.label)]
      dir := if opt.code = "ar-EG" then "rtl" else "ltr" }

/-- User selection addressed by code: the click handler of the first declared
option whose code is c.  Click handlers are attached only to declared
options (main.js line 290), so a code matching no declared option reaches no
handler and the state is unchanged. -/
def select (c : String) (s : SelectorState) : SelectorState :=
  match findOpt c s.options with
  | some p => clickItem p.1 s
  | none => s

/-- Click handler of the i-th declared option in an environment where the
localStorage.setItem call at main.js line 307 throws.  Lines 297-304 before
the write have already run, so the label text and the active flags are
updated; the write and lines 310-324 after it are skipped, so the store, the
open state, the emitted events and the dir attribute keep their old values,
and the exception propagates out of the handler. -/
def clickItemStoreThrows (i : Nat) (s : SelectorState) : SelectorState :=
  match s.options.get? i with
  | none => s
  | some opt =>
    { s with
      currentLabel := s.currentLabel.map fun _ => opt.label
      active := activeOnly s.options.length i }

/-- ArrowDown branch of the menu keydown handler (main.js lines 335-339):
focus moves to the option at index (currentIndex + 1) mod N, where
currentIndex is -1 in the source when focus is not on an option.  With zero
options the source would fault on the focus call; no state change occurs. -/
def arrowDownStep (s : SelectorState) : SelectorState :=
  if s.options.length = 0 then s
  else
    match s.focus with
    | some i => { s with focus := some ((i + 1) % s.options.length) }
    | none => { s with focus := some 0 }

/-- ArrowUp branch of the menu keydown handler (main.js lines 340-344):
focus moves to the option at index (currentIndex - 1 + N) mod N, with
currentIndex as in arrowDownStep.  The none branch is the JavaScript value
of (-1 - 1 + N) mod N rendered in Nat as (2 * N - 2) mod N. -/
def arrowUpStep (s : SelectorState) : SelectorState :=
  if s.options.length = 0 then s
  else
    match s.focus with
    | some i => { s with focus := some ((i + s.options.length - 1) % s.options.length) }
    | none => { s with focus := some ((2 * s.options.length - 2) % s.options.length) }

/-- Discrete input events of one selector instance.  selectOption i is a user
click on the i-th declared option; documentClick b is a click anywhere on
the document, with b recording whether the click target lies inside the
selector's own subtree (the contains test at main.js line 359). -/
inductive Event where
  | selectOption : Nat → Event
  | toggleClick : Event
  | arrowDown : Event
  | arrowUp : Event
  | escape : Event
  | tab : Event
  | documentClick : Bool → Event
deriving DecidableEq, Repr

/-- Event-step function of the selector: each constructor is dispatched to the
embedding of its handler in main.js.  toggleClick is lines 277-287 (flip the
is-open class, mirror aria-expanded, focus the first option when opening);
escape is lines 345-348 (close and return focus to the toggle); tab is lines
350-352 (close, focus left to the browser default); documentClick is lines
358-363 (close when the target is outside the selector subtree). -/
def step : Event → SelectorState → SelectorState
  | Event.selectOption i, s => clickItem i s
  | Event.toggleClick, s =>
    if s.isOpen then { s with isOpen := false, ariaExpanded := false }
    else
      { s with
        isOpen := true
        ariaExpanded := true
        focus := if 0 < s.options.length then some 0 else s.focus }
  | Event.arrowDown, s => arrowDownStep s
  | Event.arrowUp, s => arrowUpStep s
  | Event.escape, s => { s with isOpen := false, ariaExpanded := false, focus := none }
  | Event.tab, s => { s with isOpen := false, ariaExpanded := false }
  | Event.documentClick inside, s =>
    if inside then s else { s with isOpen := false, ariaExpanded := false }

/-- Default branch of the restore block (main.js lines 380-385): when at least
one option is declared, the first option gains the is-active class; nothing
else is touched and the other options' flags are not cleared. -/
def restoreDefault (s : SelectorState) : SelectorState :=
  if 0 < s.options.length then { s with active := s.active.set 0 true } else s

/-- Restore block run once at setup (main.js lines 365-385).  The source
tests the stored value with the truthiness check "if (savedLang)", so a
missing value and the stored empty string both take the default branch.  A
non-empty stored value is looked up among the declared options: on a hit the
label text and the active flags are updated and the dir attribute becomes
rtl exactly when the stored code is ar-EG (there is no else writing ltr); on
a miss nothing happens.  No store write, no close and no event dispatch
occur on any path. -/
def restore (s : SelectorState) : SelectorState :=
  match s.store with
  | none => restoreDefault s
  | some v =>
    if v = "" then restoreDefault s
    else
      match findOpt v s.options with
      | none => s
      | some p =>
        { s with
          currentLabel := s.currentLabel.map fun _ => p.2.label
          active := activeOnly s.options.length p.1
          dir := if v = "ar-EG" then "rtl" else s.dir }

/-- Characterisation of findOpt: a hit returns an in-range index whose option
has the requested code. -/
theorem findOpt_some {c : String} {l : List LanguageOption} {i : Nat}
    {opt : LanguageOption} (h : findOpt c l = some (i, opt)) :
    l.get? i = some opt ∧ opt.code = c := by
  induction l generalizing i with
  | nil => simp [findOpt] at h
  | cons o rest ih =>
    by_cases hc : o.code = c
    · rw [findOpt, if_pos hc] at h
      simp at h
      obtain ⟨rfl, rfl⟩ := h
      exact ⟨rfl, hc⟩
    · rw [findOpt, if_neg hc] at h
      rw [Option.map_eq_some'] at h
      obtain ⟨⟨j, o2⟩, hfind, heq⟩ := h
      simp at heq
      obtain ⟨h1, rfl⟩ := heq
      subst h1
      have := ih hfind
      simpa using this

/-- Index bound extracted from a successful list lookup. -/
theorem get?_some_lt {α : Type} {l : List α} {i : Nat} {a : α}
    (h : l.get? i = some a) : i < l.length :=
  (List.get?_eq_some.mp h).1

/-- Length of the rebuilt active-flag list. -/
theorem activeOnly_length (n i : Nat) : (activeOnly n i).length = n := by
  induction n generalizing i with
  | zero => rfl
  | succ n ih =>
    cases i with
    | zero => simp [activeOnly]
    | succ i => simp [activeOnly, ih]

/-- The clicked option carries the is-active class. -/
theorem activeOnly_get_self {n i : Nat} (h : i < n) :
    (activeOnly n i).get? i = some true := by
  induction n generalizing i with
  | zero => omega
  | succ n ih =>
    cases i with
    | zero => rfl
    | succ i => exact ih (by omega)

/-- Every other option loses the is-active class. -/
theorem activeOnly_get_other {n i j : Nat} (hj : j < n) (hne : j ≠ i) :
    (activeOnly n i).get? j = some false := by
  induction n generalizing i j with
  | zero => omega
  | succ n ih =>
    cases i with
    | zero =>
      cases j with
      | zero => omega
      | succ j =>
        have hj' : j < n := by omega
        simp [activeOnly, List.get?_eq_get, hj']
    | succ i =>
      cases j with
      | zero => rfl
      | succ j => exact ih (by omega) (by omega)

/-- The rebuilt active-flag list has its first set flag exactly at the
clicked index. -/
theorem firstActive_activeOnly {n i : Nat} (h : i < n) :
    firstActive (activeOnly n i) = some i := by
  induction n generalizing i with
  | zero => omega
  | succ n ih =>
    cases i with
    | zero => rfl
    | succ i =>
      have := ih (i := i) (by omega)
      simp [activeOnly, firstActive, this]

/-- Concrete selector instance used by the witnesses: the two options of the
scenario in the specification, menu open, label element present. -/
def exA : SelectorState :=
  { options := [⟨"en-US", "English"⟩, ⟨"ar-EG", "العربية"⟩]
    active := [true, false]
    currentLabel := some "English"
    isOpen := true
    ariaExpanded := true
    store := none
    dir := "ltr"
    emitted := []
    focus := some 0 }

/-- Claim C1: a user selection of a declared option with code c and label l
marks that option active and all others inactive, sets the visible
current-label text to l, persists c under the preference key, closes the
dropdown, and emits one languageChange notification carrying (c, l). -/
theorem clickItem_select_effects (s : SelectorState) (i : Nat) (c l : String)
    (hopt : s.options.get? i = some ⟨c, l⟩) (hcl : s.currentLabel.isSome = true) :
    (clickItem i s).active.get? i = some true ∧
    (∀ j, j < s.options.length → j ≠ i → (clickItem i s).active.get? j = some false) ∧
    (clickItem i s).currentLabel = some l ∧
    (clickItem i s).store = some c ∧
    (clickItem i s).isOpen = false ∧
    (clickItem i s).emitted = s.emitted ++ [(c, l)] := by
  have hi : i < s.options.length := get?_some_lt hopt
  obtain ⟨t, ht⟩ := Option.isSome_iff_exists.mp hcl
  simp only [clickItem, hopt, ht]
  refine ⟨activeOnly_get_self hi,
    fun j hj hne => activeOnly_get_other hj hne, ?_, ?_, ?_, ?_⟩ <;> trivial

/-- Witness for clickItem_select_effects: the user clicks the ar-EG option of
the concrete instance exA. -/
theorem clickItem_select_effects_witness :
    exA.options.get? 1 = some ⟨"ar-EG", "العربية"⟩ ∧
    exA.currentLabel.isSome = true ∧
    ((clickItem 1 exA).active.get? 1 = some true ∧
      (∀ j, j < exA.options.length → j ≠ 1 →
        (clickItem 1 exA).active.get? j = some false) ∧
      (clickItem 1 exA).currentLabel = some "العربية" ∧
      (clickItem 1 exA).store = some "ar-EG" ∧
      (clickItem 1 exA).isOpen = false ∧
      (clickItem 1 exA).emitted = exA.emitted ++ [("ar-EG", "العربية")]) :=
  ⟨rfl, rfl, clickItem_select_effects exA 1 "ar-EG" "العربية" rfl rfl⟩

/-- Claim C3: immediately after a selection of a declared code c the root dir
attribute equals rtl when c is ar-EG and equals ltr for every other declared
code. -/
theorem select_dir_rtl_iff (s : SelectorState) (c : String)
    (p : Nat × LanguageOption) (hfind : findOpt c s.options = some p) :
    (select c s).dir = if c = "ar-EG" then "rtl" else "ltr" := by
  obtain ⟨i, opt⟩ := p
  obtain ⟨hget, hcode⟩ := findOpt_some hfind
  have hget2 : s.options[i]? = some opt := by
    rw [← List.get?_eq_getElem?]; exact hget
  simp [select, hfind, clickItem, hget2, hcode]

/-- Witness for select_dir_rtl_iff: selecting en-US on the concrete instance
exA yields dir equal to ltr. -/
theorem select_dir_rtl_iff_witness :
    findOpt "en-US" exA.options = some (0, ⟨"en-US", "English"⟩) ∧
    (select "en-US" exA).dir = if "en-US" = "ar-EG" then "rtl" else "ltr" :=
  ⟨by decide, select_dir_rtl_iff exA "en-US" (0, ⟨"en-US", "English"⟩) (by decide)⟩

/-- Claim C5: isOpen is false immediately after a selection of a declared
option, an Escape key press, a pointer interaction outside the selector
subtree, or focus loss via Tab. -/
theorem step_closes_dropdown (s : SelectorState) (i : Nat)
    (hi : i < s.options.length) :
    (step (Event.selectOption i) s).isOpen = false ∧
    (step Event.escape s).isOpen = false ∧
    (step Event.tab s).isOpen = false ∧
    (step (Event.documentClick false) s).isOpen = false := by
  refine ⟨?_, rfl, rfl, rfl⟩
  have ha : s.options[i]? = some (s.options.get ⟨i, hi⟩) := by
    rw [← List.get?_eq_getElem?]; exact List.get?_eq_get hi
  simp [step, clickItem, ha]

/-- Witness for step_closes_dropdown: all four closing events on the open
concrete instance exA. -/
theorem step_closes_dropdown_witness :
    0 < exA.options.length ∧
    ((step (Event.selectOption 0) exA).isOpen = false ∧
      (step Event.escape exA).isOpen = false ∧
      (step Event.tab exA).isOpen = false ∧
      (step (Event.documentClick false) exA).isOpen = false) :=
  ⟨by decide, step_closes_dropdown exA 0 (by decide)⟩

/-- Claim C6: a selection addressed at a code matching no declared option is
a no-op: the whole selector state, in particular the active flags, the
label, the store, isOpen and the emitted events, is unchanged. -/
theorem select_undeclared_noop (s : SelectorState) (c : String)
    (hfind : findOpt c s.options = none) : select c s = s := by
  simp [select, hfind]

/-- Witness for select_undeclared_noop: the undeclared code de-DE on the
concrete instance exA. -/
theorem select_undeclared_noop_witness :
    findOpt "de-DE" exA.options = none ∧ select "de-DE" exA = exA :=
  ⟨by decide, select_undeclared_noop exA "de-DE" (by decide)⟩

/-- One ArrowDown press with focus on option i moves focus to the option at
index (i + 1) mod N. -/
theorem arrowDownStep_focus (t : SelectorState) (i : Nat) (hfoc : t.focus = some i)
    (hnz : ¬ t.options.length = 0) :
    arrowDownStep t = { t with focus := some ((i + 1) % t.options.length) } := by
  unfold arrowDownStep
  rw [if_neg hnz, hfoc]

/-- Iterated ArrowDown presses starting from focus on option 0: after k
presses the options are unchanged and focus sits on option k mod N. -/
theorem arrowDown_iterate (s : SelectorState) (n : Nat) (hn : 1 ≤ n)
    (hlen : s.options.length = n) (hfoc : s.focus = some 0) (k : Nat) :
    ((step Event.arrowDown)^[k] s).options = s.options ∧
    ((step Event.arrowDown)^[k] s).focus = some (k % n) := by
  induction k with
  | zero => simpa using hfoc
  | succ k ih =>
    obtain ⟨hopt, hfock⟩ := ih
    have hlen2 : ((step Event.arrowDown)^[k] s).options.length = n := by
      rw [hopt, hlen]
    rw [Function.iterate_succ_apply']
    have hstep : step Event.arrowDown ((step Event.arrowDown)^[k] s) =
        arrowDownStep ((step Event.arrowDown)^[k] s) := rfl
    rw [hstep, arrowDownStep_focus _ (k % n) hfock (by omega)]
    exact ⟨by simpa using hopt, by simp [hlen2, Nat.mod_add_mod]⟩

/-- Claim C7: with n declared options and focus on option 0, each ArrowDown
press moves focus to the next option modulo n, and n presses return focus to
option 0. -/
theorem arrowDown_cycles (s : SelectorState) (n : Nat) (hn : 1 ≤ n)
    (hlen : s.options.length = n) (hfoc : s.focus = some 0) :
    (∀ k, ((step Event.arrowDown)^[k] s).focus = some (k % n)) ∧
    ((step Event.arrowDown)^[n] s).focus = some 0 := by
  refine ⟨fun k => (arrowDown_iterate s n hn hlen hfoc k).2, ?_⟩
  rw [(arrowDown_iterate s n hn hlen hfoc n).2, Nat.mod_self]

/-- Witness for arrowDown_cycles: two ArrowDown presses on the two-option
instance exA return focus to option 0. -/
theorem arrowDown_cycles_witness :
    1 ≤ 2 ∧ exA.options.length = 2 ∧ exA.focus = some 0 ∧
    ((∀ k, ((step Event.arrowDown)^[k] exA).focus = some (k % 2)) ∧
      ((step Event.arrowDown)^[2] exA).focus = some 0) :=
  ⟨by decide, by decide, rfl, arrowDown_cycles exA 2 (by decide) (by decide) rfl⟩

/-- Concrete open selector instance for the storage-failure scenario. -/
def exThrow : SelectorState :=
  { options := [⟨"en-US", "English"⟩, ⟨"ar-EG", "العربية"⟩]
    active := [true, false]
    currentLabel := some "English"
    isOpen := true
    ariaExpanded := true
    store := none
    dir := "ltr"
    emitted := []
    focus := some 1 }

/-- Claim C2, refuted on the code: the source calls localStorage.setItem at
main.js line 307 with no try/catch, so when the storage write throws the
failure propagates to the caller and the controller logic after the store
access does not run.  On the concrete open instance exThrow the dropdown
stays open, no languageChange notification is emitted and nothing is
persisted, while the statements before the write (label text, active flags)
have already run. -/
theorem storeThrow_skips_controller_logic :
    (clickItemStoreThrows 1 exThrow).isOpen = true ∧
    (clickItemStoreThrows 1 exThrow).emitted = [] ∧
    (clickItemStoreThrows 1 exThrow).store = none ∧
    (clickItemStoreThrows 1 exThrow).active = [false, true] ∧
    (clickItemStoreThrows 1 exThrow).currentLabel = some "العربية" := by
  decide

/-- Concrete one-option selector instance with a stored empty-string
preference. -/
def exC9 : SelectorState :=
  { options := [⟨"en-US", "English"⟩]
    active := [false]
    currentLabel := some "English"
    isOpen := false
    ariaExpanded := false
    store := some ""
    dir := "ltr"
    emitted := []
    focus := none }

/-- Claim C8: restore with no stored preference and at least one declared
option adds the is-active class to the first option and changes nothing
else: the other options' flags, the label text, the store, the dir
attribute, isOpen and the emitted events are untouched. -/
theorem restore_no_stored_default (s : SelectorState)
    (hstore : s.store = none) (hlen : 0 < s.options.length)
    (hact : s.active.length = s.options.length) :
    (restore s).active.get? 0 = some true ∧
    (∀ j, j ≠ 0 → (restore s).active.get? j = s.active.get? j) ∧
    (restore s).currentLabel = s.currentLabel ∧
    (restore s).store = s.store ∧
    (restore s).dir = s.dir ∧
    (restore s).isOpen = s.isOpen ∧
    (restore s).emitted = s.emitted := by
  have h0 : 0 < s.active.length := by omega
  simp only [restore, hstore, restoreDefault, if_pos hlen]
  refine ⟨?_, ?_, ?_, ?_, ?_, ?_, ?_⟩
  · rw [List.get?_set_eq]
    simp [List.get?_eq_get, h0]
  · intro j hj
    exact List.get?_set_ne _ _ (fun hh => hj hh.symm)
  all_goals trivial

/-- Witness for restore_no_stored_default: a one-option instance with no
stored preference. -/
theorem restore_no_stored_default_witness :
    ({ exC9 with store := none } : SelectorState).store = none ∧
    0 < ({ exC9 with store := none } : SelectorState).options.length ∧
    ({ exC9 with store := none } : SelectorState).active.length =
      ({ exC9 with store := none } : SelectorState).options.length ∧
    ((restore { exC9 with store := none }).active.get? 0 = some true ∧
      (∀ j, j ≠ 0 → (restore { exC9 with store := none }).active.get? j =
        ({ exC9 with store := none } : SelectorState).active.get? j) ∧
      (restore { exC9 with store := none }).currentLabel =
        ({ exC9 with store := none } : SelectorState).currentLabel ∧
      (restore { exC9 with store := none }).store =
        ({ exC9 with store := none } : SelectorState).store ∧
      (restore { exC9 with store := none }).dir =
        ({ exC9 with store := none } : SelectorState).dir ∧
      (restore { exC9 with store := none }).isOpen =
        ({ exC9 with store := none } : SelectorState).isOpen ∧
      (restore { exC9 with store := none }).emitted =
        ({ exC9 with store := none } : SelectorState).emitted) :=
  ⟨rfl, by decide, by decide,
    restore_no_stored_default _ rfl (by decide) (by decide)⟩

/-- Counterexample to claim C9: the stored empty string matches no declared
option of exC9, yet restore applies the first-option default and activates
en-US, because the source tests the stored value with the truthiness check
at main.js line 367 and the empty string is falsy. -/
theorem restore_empty_stored_applies_default :
    findOpt "" exC9.options = none ∧
    exC9.active = [false] ∧
    (restore exC9).active = [true] := by decide

/-- Claim C9 as amended: when the stored value is non-empty and matches no
declared option's code, restore changes nothing at all; a stored empty
string is instead treated like a missing value and triggers the
first-option default. -/
theorem restore_unmatched_nonempty_noop (s : SelectorState) (v : String)
    (hstore : s.store = some v) (hne : ¬ v = "")
    (hfind : findOpt v s.options = none) : restore s = s := by
  simp [restore, hstore, hne, hfind]

/-- Witness for restore_unmatched_nonempty_noop: the undeclared non-empty
stored code xx leaves the state untouched. -/
theorem restore_unmatched_nonempty_noop_witness :
    ({ exC9 with store := some "xx" } : SelectorState).store = some "xx" ∧
    (¬ ("xx" : String) = "") ∧
    findOpt "xx" ({ exC9 with store := some "xx" } : SelectorState).options = none ∧
    restore { exC9 with store := some "xx" } = { exC9 with store := some "xx" } :=
  ⟨rfl, by decide, by decide,
    restore_unmatched_nonempty_noop _ "xx" rfl (by decide) (by decide)⟩

/-- Concrete selector instance declaring an option whose code is the empty
string. -/
def exC4 : SelectorState :=
  { options := [⟨"en-US", "English"⟩, ⟨"", "None"⟩]
    active := [false, false]
    currentLabel := some "English"
    isOpen := false
    ariaExpanded := false
    store := none
    dir := "ltr"
    emitted := []
    focus := none }

/-- Counterexample to claim C4: the empty string is a declared code of exC4,
yet storing it and running restore selects the first option en-US rather
than the stored option, because the truthiness check at main.js line 367
treats a stored empty string as absent. -/
theorem restore_roundtrip_empty_code_fails :
    findOpt "" exC4.options = some (1, ⟨"", "None"⟩) ∧
    selectedCode (restore { exC4 with store := some "" }) = some "en-US" ∧
    ¬ selectedCode (restore { exC4 with store := some "" }) = some "" := by
  decide

/-- Claim C4 as amended: for every declared non-empty code c, storing c and
running restore on a fresh instance over the same declared option list
selects c: selectedCode equals c, the option for c carries the is-active
class, and its label is displayed. -/
theorem restore_roundtrip (s : SelectorState) (c : String)
    (p : Nat × LanguageOption) (hne : ¬ c = "")
    (hfind : findOpt c s.options = some p)
    (hcl : s.currentLabel.isSome = true) :
    selectedCode (restore { s with store := some c }) = some c ∧
    (restore { s with store := some c }).active.get? p.1 = some true ∧
    (restore { s with store := some c }).currentLabel = some p.2.label := by
  obtain ⟨i, opt⟩ := p
  obtain ⟨hget, hcode⟩ := findOpt_some hfind
  have hi : i < s.options.length := get?_some_lt hget
  have hres : restore { s with store := some c } =
      { s with
        store := some c
        currentLabel := s.currentLabel.map fun _ => opt.label
        active := activeOnly s.options.length i
        dir := if c = "ar-EG" then "rtl" else s.dir } := by
    simp [restore, hne, hfind]
  rw [hres]
  refine ⟨?_, activeOnly_get_self hi, ?_⟩
  · show (firstActive (activeOnly s.options.length i)).bind
        (fun j => (s.options.get? j).map (fun o => o.code)) = some c
    rw [firstActive_activeOnly hi]
    show (s.options.get? i).map (fun o => o.code) = some c
    rw [hget]
    simp [hcode]
  · obtain ⟨t, ht⟩ := Option.isSome_iff_exists.mp hcl
    simp [ht]

/-- Witness for restore_roundtrip: storing the declared code ar-EG on the
concrete instance exA and restoring selects ar-EG. -/
theorem restore_roundtrip_witness :
    (¬ ("ar-EG" : String) = "") ∧
    findOpt "ar-EG" exA.options = some (1, ⟨"ar-EG", "العربية"⟩) ∧
    exA.currentLabel.isSome = true ∧
    (selectedCode (restore { exA with store := some "ar-EG" }) = some "ar-EG" ∧
      (restore { exA with store := some "ar-EG" }).active.get? 1 = some true ∧
      (restore { exA with store := some "ar-EG" }).currentLabel = some "العربية") :=
  ⟨by decide, by decide, rfl,
    restore_roundtrip exA "ar-EG" (1, ⟨"ar-EG", "العربية"⟩) (by decide) (by decide) rfl⟩

/-- Claim C10: restore with a stored declared code sets the dir attribute to
rtl when that code is ar-EG and leaves dir unchanged for every other
declared stored code; unlike select, it never writes ltr. -/
theorem restore_dir_rtl_only (s : SelectorState) (c : String)
    (p : Nat × LanguageOption) (hstore : s.store = some c)
    (hfind : findOpt c s.options = some p) :
    (restore s).dir = if c = "ar-EG" then "rtl" else s.dir := by
  by_cases hc : c = ""
  · subst hc
    rw [if_neg (by decide)]
    have h1 : restore s = restoreDefault s := by simp [restore, hstore]
    rw [h1]
    unfold restoreDefault
    split <;> rfl
  · simp [restore, hstore, hc, hfind]

/-- Witness for restore_dir_rtl_only: the stored declared code ar-EG turns
the dir attribute to rtl on restore. -/
theorem restore_dir_rtl_only_witness :
    ({ exA with store := some "ar-EG" } : SelectorState).store = some "ar-EG" ∧
    findOpt "ar-EG" ({ exA with store := some "ar-EG" } : SelectorState).options =
      some (1, ⟨"ar-EG", "العربية"⟩) ∧
    (restore { exA with store := some "ar-EG" }).dir =
      if ("ar-EG" : String) = "ar-EG" then "rtl"
      else ({ exA with store := some "ar-EG" } : SelectorState).dir :=
  ⟨rfl, by decide,
    restore_dir_rtl_only _ "ar-EG" (1, ⟨"ar-EG", "العربية"⟩) rfl (by decide)⟩

end TourGuide
